import Mathlib

/-!
Verification of the VPS agent (`src/vps-agent/agent.py`): a shallow embedding
of its auth gate, command validator, command runner and operation handlers,
with theorems about the behaviour the specification describes.

Modelling conventions:
* JSON values (Python dicts built by the handlers and by `jsonify`) are the
  inductive `JVal`; Python `dict.get` is `lookupField`, subscript lookup is
  `jlookup` (returning `none` where Python would raise `KeyError`).
* The outcome of `subprocess.run` is an oracle value `SubprocessOutcome`
  passed into each handler: normal completion with captured streams and exit
  code, expiry of the 60-second timeout, or a launch failure.
* Side effects (directory creation, file writes, subprocess launches) are
  recorded in an ordered `List Effect` returned alongside the HTTP outcome.
* A handler either produces `HandlerOutcome.response status body` or, when an
  exception escapes it, `HandlerOutcome.unhandled msg`.
* Python `str.split` on a single space is `splitSpaces` (keeping empty
  fields), and `str.startswith` is `pyStartsWith`.
-/

namespace VpsAgent

/-- JSON values, modelling the Python dicts/lists/strings the agent builds. -/
inductive JVal where
  | jnull
  | jbool (b : Bool)
  | jnum (n : Int)
  | jstr (s : String)
  | jarr (elems : List JVal)
  | jobj (fields : List (String × JVal))

/-- The space character, the separator of Python `split` in `require_auth`. -/
def spaceChar : Char := ' '

/-- Python `s.split` with a single-space separator, on the character list:
split at every space, keeping empty fields (so `"Bearer ".split` yields
two fields, the second empty). -/
def splitSpaces : List Char → List (List Char)
  | [] => [[]]
  | c :: cs =>
    let r := splitSpaces cs
    if c = spaceChar then [] :: r
    else
      match r with
      | [] => [[c]]
      | w :: ws => (c :: w) :: ws

/-- Python `s.split` with a single space separator, on strings. -/
def pySplitSpace (s : String) : List String :=
  (splitSpaces s.data).map String.mk

/-- Python `s.startswith(pre)`. -/
def pyStartsWith (s pre : String) : Bool :=
  pre.data.isPrefixOf s.data

/-- `AGENT_TOKEN`'s fallback value when the environment variable is unset. -/
def defaultAgentToken : String := "default-token"

/-- `APP_DIR` from the source. -/
def APP_DIR : String := "/opt/app"

/-- `CADDYFILE_PATH` from the source. -/
def CADDYFILE_PATH : String := APP_DIR ++ "/Caddyfile"

/-- The possible outcomes of the `require_auth` decorator's check. -/
inductive AuthOutcome where
  | missingHeader
  | invalidToken
  | indexFault
  | authorized
  deriving DecidableEq

/-- The auth gate of `require_auth`: reject when the header is absent, empty
or does not start with the literal `Bearer` scheme; otherwise compare the
field after the first space with the configured token.  `indexFault` models
the `IndexError` Python would raise if the split had fewer than two fields. -/
def require_auth (authHeader : Option String) (agentToken : String) : AuthOutcome :=
  match authHeader with
  | none => .missingHeader
  | some h =>
    if h = "" || !(pyStartsWith h "Bearer ") then .missingHeader
    else
      match (pySplitSpace h).get? 1 with
      | none => .indexFault
      | some token => if token = agentToken then .authorized else .invalidToken

/-- The side effects a handler can perform, in execution order. -/
inductive Effect where
  | makedirs (path : String)
  | fileWrite (path content : String)
  | chmodFile (path : String) (mode : Nat)
  | runProc (command cwd : String)

/-- What an HTTP request to a handler produces: either a response with a
status code and JSON body, or an exception that escapes the handler
(`unhandled msg`, which Flask would turn into a generic 500 error page). -/
inductive HandlerOutcome where
  | response (status : Nat) (body : JVal)
  | unhandled (msg : String)

/-- Oracle for what `subprocess.run` does on one invocation: completes with
captured streams and exit code, exceeds the 60-second timeout
(`subprocess.TimeoutExpired`), or fails to launch (any other exception,
carrying its `str(e)` message). -/
inductive SubprocessOutcome where
  | completed (stdout stderr : String) (returncode : Int)
  | timedOut
  | launchFailure (msg : String)
  deriving DecidableEq

/-- The dict `run_command` returns: on completion the four keys
`success`/`stdout`/`stderr`/`returncode` with `success = (returncode == 0)`;
on timeout or launch failure only `success: False` and an `error` message,
`Command timed out` for the timeout. -/
def run_command_result (o : SubprocessOutcome) : JVal :=
  match o with
  | .completed out err rc =>
    .jobj [("success", .jbool (rc == 0)), ("stdout", .jstr out),
           ("stderr", .jstr err), ("returncode", .jnum rc)]
  | .timedOut => .jobj [("success", .jbool false), ("error", .jstr "Command timed out")]
  | .launchFailure msg => .jobj [("success", .jbool false), ("error", .jstr msg)]

/-- `cwd or APP_DIR` from `run_command`: Python `or` falls through on `None`
and on the empty (falsy) string. -/
def resolveCwd (cwd : Option String) : String :=
  match cwd with
  | none => APP_DIR
  | some s => if s = "" then APP_DIR else s

/-- A call to `run_command`: yields the result dict and records that one
subprocess was launched with the given command line and working directory. -/
def run_command (command : String) (cwd : Option String) (o : SubprocessOutcome) :
    JVal × List Effect :=
  (run_command_result o, [.runProc command (resolveCwd cwd)])

/-- Lookup in an association list of JSON object fields. -/
def lookupField : List (String × JVal) → String → Option JVal
  | [], _ => none
  | (k, v) :: rest, key => if k = key then some v else lookupField rest key

/-- Python `d[key]` on a dict value; `none` where Python raises `KeyError`. -/
def jlookup (v : JVal) (key : String) : Option JVal :=
  match v with
  | .jobj fields => lookupField fields key
  | _ => none

/-- Python truthiness of a JSON value. -/
def truthy : JVal → Bool
  | .jnull => false
  | .jbool b => b
  | .jnum n => n != 0
  | .jstr s => s != ""
  | .jarr elems => !elems.isEmpty
  | .jobj fields => !fields.isEmpty

/-- Python truthiness where `none` stands for Python `None`. -/
def truthyOpt : Option JVal → Bool
  | none => false
  | some v => truthy v

/-- A handler's test `result['success']` on a `run_command` dict, read in a
boolean context (the key is always present in those dicts). -/
def resultSuccess (r : JVal) : Bool :=
  truthyOpt (jlookup r "success")

/-- Whether a subprocess outcome counts as success for `run_command`:
completion with exit code zero. -/
def runSuccess (o : SubprocessOutcome) : Bool :=
  match o with
  | .completed _ _ rc => rc == 0
  | _ => false

/-- Python type names for the values `get_json` can produce, used to build
the `AttributeError` message when a handler calls `.get` on a non-dict. -/
def jTypeName : JVal → String
  | .jnull => "NoneType"
  | .jbool _ => "bool"
  | .jnum _ => "int"
  | .jstr _ => "str"
  | .jarr _ => "list"
  | .jobj _ => "dict"

/-- Python type name of the parsed request body (`none` is Python `None`). -/
def pyTypeName : Option JVal → String
  | none => "NoneType"
  | some v => jTypeName v

/-- `str(e)` of the `AttributeError` raised by `data.get(...)` when the
parsed body is not a dict. -/
def pyGetAttrError (data : Option JVal) : String :=
  "\x27" ++ pyTypeName data ++ "\x27 object has no attribute \x27get\x27"

/-- `str(e)` of the `TypeError` raised by `f.write(...)` on a non-string. -/
def pyWriteTypeError (v : JVal) : String :=
  "write() argument must be str, not " ++ jTypeName v

/-- `str(e)` of the `NameError` raised at `logger.info` / `logger.error` in
`exec_command`: the module imports `logging` but never defines `logger`. -/
def nameErrorLogger : String := "name \x27logger\x27 is not defined"

/-- The five-entry static allowlist of `exec_command`. -/
def allowed_commands : List String :=
  ["sed -n \x271,120p\x27 /opt/app/Caddyfile",
   "cat /opt/app/docker-compose.yml",
   "ls -la /opt/app/",
   "docker compose ps",
   "docker compose ps --format json"]

/-- The fixed leading text of an admitted backup-copy command. -/
def backupCmdHead : String := "cp /opt/app/Caddyfile /opt/app/Caddyfile.bak."

/-- The validator decision of `exec_command`: the command is appended to the
allowlist when it starts with the backup-copy text, then membership in the
resulting list is tested (`command not in allowed_commands`). -/
def commandAllowed (command : String) : Bool :=
  let cmds :=
    if pyStartsWith command backupCmdHead
    then allowed_commands ++ [command] else allowed_commands
  cmds.contains command

/-- The `exec_command` handler body (after auth).  `data` is the parsed JSON
request body, `o` the subprocess oracle.  Faithful to the source, including
its defect: on any path that reaches line 334 (`logger.info`) or the
`except` block's line 344 (`logger.error`), the undefined name `logger`
raises a `NameError` that escapes the handler, so an admitted command never
reaches `run_command`. -/
def exec_command (data : Option JVal) (_o : SubprocessOutcome) :
    HandlerOutcome × List Effect :=
  match data with
  | some (.jobj fields) =>
    let command := lookupField fields "command"
    if !truthyOpt command then
      (.response 400 (.jobj [("success", .jbool false),
        ("error", .jstr "Command is required")]), [])
    else
      match command with
      | some (.jstr cmd) =>
        if commandAllowed cmd then
          (.unhandled nameErrorLogger, [])
        else
          (.response 403 (.jobj [("success", .jbool false),
            ("error", .jstr ("Command not allowed: " ++ cmd))]), [])
      | _ =>
        (.unhandled nameErrorLogger, [])
  | _ =>
    (.unhandled nameErrorLogger, [])

/-- The `require_auth` decorator wrapping a handler: on a failed check the
wrapped handler is never invoked and a 401 body is returned with no side
effects; on success the handler runs unchanged. -/
def with_auth (authHeader : Option String) (agentToken : String)
    (handler : Unit → HandlerOutcome × List Effect) : HandlerOutcome × List Effect :=
  match require_auth authHeader agentToken with
  | .missingHeader =>
    (.response 401 (.jobj [("error", .jstr "Missing or invalid authorization header")]), [])
  | .invalidToken =>
    (.response 401 (.jobj [("error", .jstr "Invalid token")]), [])
  | .indexFault =>
    (.unhandled "list index out of range", [])
  | .authorized => handler ()

/-- The `status` handler body: runs the fixed query and answers 200 with the
captured stdout, without inspecting `result['success']`; when the result
dict has no `stdout` key (timeout or launch failure) the subscript raises
`KeyError`, which the handler's `except` turns into a 500 envelope whose
error text is `str(KeyError)`. -/
def status_handler (o : SubprocessOutcome) : HandlerOutcome × List Effect :=
  let r := run_command "docker compose ps --format json" none o
  match jlookup r.1 "stdout" with
  | some v =>
    (.response 200 (.jobj [("success", .jbool true),
      ("message", .jstr "Status checked successfully"), ("services", v)]), r.2)
  | none =>
    (.response 500 (.jobj [("success", .jbool false),
      ("error", .jstr "\x27stdout\x27")]), r.2)

/-- The `update_caddy` handler body.  `writeErr` is an oracle for the file
write: `none` means the write succeeds, `some msg` an `OSError` whose
`str(e)` is `msg` raised when opening the file.  On a non-string `caddyfile`
value the opened file is truncated and `f.write` raises `TypeError`. -/
def update_caddy (data : Option JVal) (writeErr : Option String)
    (o : SubprocessOutcome) : HandlerOutcome × List Effect :=
  match data with
  | some (.jobj fields) =>
    let domains := (lookupField fields "domains").getD (.jarr [])
    match (lookupField fields "caddyfile").getD (.jstr "") with
    | .jstr caddyfile =>
      match writeErr with
      | some msg =>
        (.response 500 (.jobj [("success", .jbool false),
          ("error", .jstr msg)]), [.makedirs APP_DIR])
      | none =>
        let r := run_command
          "docker compose exec caddy caddy reload --config /etc/caddy/Caddyfile" none o
        let effs := [.makedirs APP_DIR, .fileWrite CADDYFILE_PATH caddyfile] ++ r.2
        if !(resultSuccess r.1) then
          (.response 500 (.jobj [("success", .jbool false),
            ("error", .jstr "Failed to reload Caddy"), ("details", r.1)]), effs)
        else
          (.response 200 (.jobj [("success", .jbool true),
            ("message", .jstr "Caddyfile updated and Caddy reloaded successfully"),
            ("domains", domains)]), effs)
    | v =>
      (.response 500 (.jobj [("success", .jbool false),
        ("error", .jstr (pyWriteTypeError v))]),
       [.makedirs APP_DIR, .fileWrite CADDYFILE_PATH ""])
  | _ =>
    (.response 500 (.jobj [("success", .jbool false),
      ("error", .jstr (pyGetAttrError data))]), [])

/-- The `deploy` handler body: runs `./deploy.sh`, and only when that
reported success runs the container refresh; each failure returns the
failing step's result dict as `details`. -/
def deploy (data : Option JVal) (deployO updateO : SubprocessOutcome) :
    HandlerOutcome × List Effect :=
  match data with
  | some (.jobj fields) =>
    let commitSha := (lookupField fields "commitSha").getD (.jstr "latest")
    let r1 := run_command "./deploy.sh" none deployO
    if !(resultSuccess r1.1) then
      (.response 500 (.jobj [("success", .jbool false),
        ("error", .jstr "Deploy script failed"), ("details", r1.1)]), r1.2)
    else
      let r2 := run_command "docker compose up -d --pull always" none updateO
      if !(resultSuccess r2.1) then
        (.response 500 (.jobj [("success", .jbool false),
          ("error", .jstr "Failed to update containers"), ("details", r2.1)]),
         r1.2 ++ r2.2)
      else
        (.response 200 (.jobj [("success", .jbool true),
          ("message", .jstr "Deployment completed successfully"),
          ("commitSha", commitSha)]), r1.2 ++ r2.2)
  | _ =>
    (.response 500 (.jobj [("success", .jbool false),
      ("error", .jstr (pyGetAttrError data))]), [])

/-- The routed `/exec-command` endpoint: `require_auth` around `exec_command`. -/
def exec_command_endpoint (hdr : Option String) (agentToken : String)
    (data : Option JVal) (o : SubprocessOutcome) : HandlerOutcome × List Effect :=
  with_auth hdr agentToken (fun _ => exec_command data o)

/-- The routed `/status` endpoint: `require_auth` around `status_handler`. -/
def status_endpoint (hdr : Option String) (agentToken : String)
    (o : SubprocessOutcome) : HandlerOutcome × List Effect :=
  with_auth hdr agentToken (fun _ => status_handler o)

/-- The routed `/update-caddy` endpoint: `require_auth` around `update_caddy`. -/
def update_caddy_endpoint (hdr : Option String) (agentToken : String)
    (data : Option JVal) (writeErr : Option String) (o : SubprocessOutcome) :
    HandlerOutcome × List Effect :=
  with_auth hdr agentToken (fun _ => update_caddy data writeErr o)

/-- The routed `/deploy` endpoint: `require_auth` around `deploy`. -/
def deploy_endpoint (hdr : Option String) (agentToken : String)
    (data : Option JVal) (deployO updateO : SubprocessOutcome) :
    HandlerOutcome × List Effect :=
  with_auth hdr agentToken (fun _ => deploy data deployO updateO)

/-- The content the effect trace leaves on disk at `path`: the last write to
that path, if any. -/
def fileAfter (effs : List Effect) (path : String) : Option String :=
  effs.foldl
    (fun acc e =>
      match e with
      | .fileWrite p c => if p = path then some c else acc
      | _ => acc)
    none

/-- A concrete handler with a visible side effect, used to exhibit that the
auth gate never invokes the wrapped handler. -/
def sampleHandler : Unit → HandlerOutcome × List Effect :=
  fun _ => (.response 200 .jnull, [.runProc "docker compose ps" APP_DIR])

/-! Helper lemmas about the embedded primitives. -/

theorem string_data_append (s t : String) : (s ++ t).data = s.data ++ t.data := by
  cases s
  cases t
  rfl

theorem string_mk_data (s : String) : String.mk s.data = s := by
  cases s
  rfl

theorem isPrefixOf_append (l t : List Char) : l.isPrefixOf (l ++ t) = true := by
  rw [List.isPrefixOf_iff_prefix]
  exact List.prefix_append l t

theorem splitSpaces_ne_nil (l : List Char) : splitSpaces l ≠ [] := by
  induction l with
  | nil => simp [splitSpaces]
  | cons c cs ih =>
    by_cases hc : c = spaceChar
    · simp [splitSpaces, hc]
    · cases h : splitSpaces cs with
      | nil => exact absurd h ih
      | cons w ws => simp [splitSpaces, hc, h]

theorem splitSpaces_append_space (w rest : List Char) (hw : ∀ c ∈ w, c ≠ spaceChar) :
    splitSpaces (w ++ spaceChar :: rest) = w :: splitSpaces rest := by
  induction w with
  | nil => simp [splitSpaces]
  | cons c cs ih =>
    have hc : c ≠ spaceChar := hw c (List.mem_cons_self c cs)
    have ih2 := ih (fun x hx => hw x (List.mem_cons_of_mem c hx))
    simp [splitSpaces, List.cons_append, ih2, hc]

theorem pySplitSpace_bearer (h : String) (hp : pyStartsWith h "Bearer " = true) :
    ∃ t : List Char, h.data = "Bearer ".data ++ t ∧
      pySplitSpace h = String.mk "Bearer".data :: (splitSpaces t).map String.mk := by
  unfold pyStartsWith at hp
  rw [List.isPrefixOf_iff_prefix] at hp
  obtain ⟨t, ht⟩ := hp
  refine ⟨t, ht.symm, ?_⟩
  unfold pySplitSpace
  rw [← ht]
  have hw : ∀ c ∈ "Bearer".data, c ≠ spaceChar := by decide
  have heq : "Bearer ".data ++ t = "Bearer".data ++ spaceChar :: t := rfl
  rw [heq, splitSpaces_append_space _ _ hw]
  rfl

theorem bearer_token_exists (h : String) (hp : pyStartsWith h "Bearer " = true) :
    ∃ tok, (pySplitSpace h).get? 1 = some tok := by
  obtain ⟨t, _, hsplit⟩ := pySplitSpace_bearer h hp
  rw [hsplit]
  cases ht : splitSpaces t with
  | nil => exact absurd ht (splitSpaces_ne_nil t)
  | cons w ws => exact ⟨String.mk w, by simp [ht]⟩

theorem with_auth_authorized (hdr : Option String) (cred : String)
    (k : Unit → HandlerOutcome × List Effect)
    (hauth : require_auth hdr cred = .authorized) :
    with_auth hdr cred k = k () := by
  unfold with_auth
  rw [hauth]

theorem resultSuccess_run (o : SubprocessOutcome) :
    resultSuccess (run_command_result o) = runSuccess o := by
  cases o <;>
    simp [resultSuccess, run_command_result, runSuccess, jlookup, lookupField,
      truthyOpt, truthy]

theorem require_auth_startsWith_false (h : String) (cred : String)
    (hp : pyStartsWith h "Bearer " = false) :
    require_auth (some h) cred = .missingHeader := by
  simp [require_auth, hp]

theorem require_auth_bearer (h : String) (cred : String)
    (hne : h ≠ "") (hp : pyStartsWith h "Bearer " = true) :
    ∃ tok, (pySplitSpace h).get? 1 = some tok ∧
      require_auth (some h) cred =
        (if tok = cred then .authorized else .invalidToken) := by
  obtain ⟨tok, htok⟩ := bearer_token_exists h hp
  refine ⟨tok, htok, ?_⟩
  have htok2 : (pySplitSpace h)[1]? = some tok := by
    rw [← List.get?_eq_getElem?]
    exact htok
  simp [require_auth, hne, hp, htok2]

/-! Theorems for the claims. -/

/-- Claim C10: for every Authorization header starting with the literal
scheme text, splitting on spaces yields at least two fields, so the token
extraction of `require_auth` never faults; a header of the shape
`Bearer <credential> <extra>` is accepted when the first field after the
scheme equals the credential; and the header consisting of exactly the
scheme text (empty token) is rejected with a 401 outcome rather than
raising, whenever the credential is non-empty. -/
theorem spec_C10_token_extraction (cred h tok extra : String) :
    (pyStartsWith h "Bearer " = true →
      2 ≤ (pySplitSpace h).length ∧ require_auth (some h) cred ≠ .indexFault)
    ∧ ((∀ c ∈ tok.data, c ≠ spaceChar) →
      require_auth (some ("Bearer " ++ tok ++ " " ++ extra)) tok = .authorized)
    ∧ (cred ≠ "" → require_auth (some "Bearer ") cred = .invalidToken) := by
  refine ⟨?_, ?_, ?_⟩
  · intro hp
    obtain ⟨t, hdata, hsplit⟩ := pySplitSpace_bearer h hp
    constructor
    · rw [hsplit]
      simp only [List.length_cons, List.length_map]
      have hlen : 0 < (splitSpaces t).length :=
        List.length_pos.mpr (splitSpaces_ne_nil t)
      omega
    · have hne : h ≠ "" := by
        intro he
        rw [he] at hp
        exact absurd hp (by decide)
      obtain ⟨tk, _, hra⟩ := require_auth_bearer h cred hne hp
      rw [hra]
      by_cases hc : tk = cred
      · simp [hc]
      · simp [hc]
  · intro hts
    have hdata : ("Bearer " ++ tok ++ " " ++ extra).data
        = "Bearer".data ++ spaceChar :: (tok.data ++ spaceChar :: extra.data) := by
      cases tok with
      | mk td =>
        cases extra with
        | mk ed => simp [String.instAppend, String.append, spaceChar]
    have hp : pyStartsWith ("Bearer " ++ tok ++ " " ++ extra) "Bearer " = true := by
      unfold pyStartsWith
      rw [hdata]
      have heq : "Bearer".data ++ spaceChar :: (tok.data ++ spaceChar :: extra.data)
          = "Bearer ".data ++ (tok.data ++ spaceChar :: extra.data) := rfl
      rw [heq]
      exact isPrefixOf_append _ _
    have hsplit : pySplitSpace ("Bearer " ++ tok ++ " " ++ extra)
        = String.mk "Bearer".data :: tok :: (splitSpaces extra.data).map String.mk := by
      unfold pySplitSpace
      rw [hdata]
      have hw : ∀ c ∈ "Bearer".data, c ≠ spaceChar := by decide
      rw [splitSpaces_append_space _ _ hw, splitSpaces_append_space _ _ hts]
      simp [string_mk_data]
    have hne : ("Bearer " ++ tok ++ " " ++ extra) ≠ "" := by
      intro he
      have hnil : ("Bearer " ++ tok ++ " " ++ extra).data = [] := by rw [he]
      rw [hdata] at hnil
      exact absurd hnil (by simp)
    obtain ⟨tk, htk, hra⟩ := require_auth_bearer _ tok hne hp
    have htk2 : tk = tok := by
      rw [hsplit] at htk
      simp at htk
      exact htk.symm
    rw [hra, htk2]
    simp
  · intro hcred
    have h1 : require_auth (some "Bearer ") cred
        = if "" = cred then .authorized else .invalidToken := rfl
    rw [h1, if_neg (fun he => hcred he.symm)]

/-- Claim C10 witness: the theorem applied at concrete inputs. -/
theorem spec_C10_witness :
    require_auth (some ("Bearer " ++ "default-token" ++ " " ++ "x")) "default-token"
      = .authorized
    ∧ require_auth (some "Bearer ") "default-token" = .invalidToken :=
  ⟨(spec_C10_token_extraction "default-token" "h" "default-token" "x").2.1 (by decide),
   (spec_C10_token_extraction "default-token" "h" "tok" "x").2.2 (by decide)⟩

/-- Claim C2: a request whose Authorization header is absent, does not start
with the literal scheme text, or carries a token different from the
configured credential gets a 401 response, with no side effect: the wrapped
handler (arbitrary here) is never invoked and the effect trace is empty. -/
theorem spec_C2_unauthorized (hdr : Option String) (cred : String)
    (k : Unit → HandlerOutcome × List Effect)
    (hbad : hdr = none
      ∨ (∃ h, hdr = some h ∧ pyStartsWith h "Bearer " = false)
      ∨ (∃ h, hdr = some h ∧ (pySplitSpace h).get? 1 ≠ some cred)) :
    ∃ body, with_auth hdr cred k = (.response 401 body, []) := by
  rcases hbad with rfl | ⟨h, rfl, hp⟩ | ⟨h, rfl, ht⟩
  · exact ⟨.jobj [("error", .jstr "Missing or invalid authorization header")], rfl⟩
  · have hra := require_auth_startsWith_false h cred hp
    refine ⟨.jobj [("error", .jstr "Missing or invalid authorization header")], ?_⟩
    unfold with_auth
    rw [hra]
  · by_cases hp : pyStartsWith h "Bearer " = true
    · have hne : h ≠ "" := by
        intro he
        rw [he] at hp
        exact absurd hp (by decide)
      obtain ⟨tk, htk, hra⟩ := require_auth_bearer h cred hne hp
      have hne2 : tk ≠ cred := by
        intro he
        rw [he] at htk
        exact ht htk
      rw [if_neg hne2] at hra
      refine ⟨.jobj [("error", .jstr "Invalid token")], ?_⟩
      unfold with_auth
      rw [hra]
    · have hp2 : pyStartsWith h "Bearer " = false := by
        cases hb : pyStartsWith h "Bearer "
        · rfl
        · exact absurd hb hp
      have hra := require_auth_startsWith_false h cred hp2
      refine ⟨.jobj [("error", .jstr "Missing or invalid authorization header")], ?_⟩
      unfold with_auth
      rw [hra]

/-- Claim C2 witness: a wrong token against a handler with visible side
effects yields 401 and an empty effect trace. -/
theorem spec_C2_witness :
    ∃ body, with_auth (some "Bearer wrong") "default-token" sampleHandler
      = (.response 401 body, []) :=
  spec_C2_unauthorized (some "Bearer wrong") "default-token" sampleHandler
    (Or.inr (Or.inr ⟨"Bearer wrong", rfl, by decide⟩))

/-- Claim C1 counterexample: the empty command string is not an allowlist
member and does not start with the backup-copy text, so the claim as stated
demands a 403; the handler instead answers 400 (`Command is required`),
because the empty string is falsy at the missing-command check. -/
theorem spec_C1_counterexample :
    allowed_commands.contains "" = false
    ∧ pyStartsWith "" backupCmdHead = false
    ∧ exec_command_endpoint (some "Bearer default-token") "default-token"
        (some (.jobj [("command", .jstr "")])) .timedOut
      = (.response 400 (.jobj [("success", .jbool false),
          ("error", .jstr "Command is required")]), []) :=
  ⟨rfl, rfl, rfl⟩

/-- Claim C1 (amended): for every authenticated exec-command request whose
command string is non-empty, not equal to one of the five allowlisted
commands and not starting with the backup-copy text, the handler returns 403
with the `Command not allowed` envelope and launches no subprocess. -/
theorem spec_C1_disallowed_403 (hdr : Option String) (cred cmd : String)
    (fields : List (String × JVal)) (o : SubprocessOutcome)
    (hauth : require_auth hdr cred = .authorized)
    (hcmd : lookupField fields "command" = some (.jstr cmd))
    (hne : cmd ≠ "")
    (hmem : cmd ∉ allowed_commands)
    (hpre : pyStartsWith cmd backupCmdHead = false) :
    exec_command_endpoint hdr cred (some (.jobj fields)) o
      = (.response 403 (.jobj [("success", .jbool false),
          ("error", .jstr ("Command not allowed: " ++ cmd))]), []) := by
  unfold exec_command_endpoint
  rw [with_auth_authorized hdr cred _ hauth]
  have hal : commandAllowed cmd = false := by
    unfold commandAllowed
    have hnp : ¬ (pyStartsWith cmd backupCmdHead = true) := by simp [hpre]
    rw [if_neg hnp]
    simpa using hmem
  simp [exec_command, hcmd, hal, truthyOpt, truthy, hne]

/-- Claim C1 witness: the spec's own example, `rm -rf /` with a valid
token, answers 403 with the exact envelope and no effects. -/
theorem spec_C1_witness :
    exec_command_endpoint (some "Bearer default-token") "default-token"
      (some (.jobj [("command", .jstr "rm -rf /")])) .timedOut
      = (.response 403 (.jobj [("success", .jbool false),
          ("error", .jstr "Command not allowed: rm -rf /")]), []) :=
  spec_C1_disallowed_403 _ _ _ _ _ (by decide) rfl (by decide) (by decide) (by decide)

/-- Claim C3: evaluation at the failing input.  On an admitted command the
handler reaches `logger.info`, whose undefined name raises `NameError`; the
`except` block then evaluates `logger.error`, raising `NameError` again, so
the failure escapes `exec_command` instead of becoming a failure envelope. -/
theorem spec_C3_unhandled_nameerror :
    exec_command (some (.jobj [("command", .jstr "docker compose ps")])) .timedOut
      = (.unhandled nameErrorLogger, []) := rfl

/-- Claim C4: evaluation at the failing input.  With a valid token, an
admitted non-empty command and a subprocess oracle that would succeed, the
endpoint launches no subprocess and returns no envelope: the `NameError`
at `logger.info` escapes before `run_command` is ever reached. -/
theorem spec_C4_no_runner_invocation :
    exec_command_endpoint (some "Bearer default-token") "default-token"
      (some (.jobj [("command", .jstr "cat /opt/app/docker-compose.yml")]))
      (.completed "ok" "" 0)
      = (.unhandled nameErrorLogger, []) := rfl

/-- Claim C5: the validator admits exactly the commands that are members of
the five-entry static allowlist or start with the fixed backup-copy text;
in particular the backup text followed by an arbitrary suffix is admitted.
Membership is plain list membership of the full command string: no partial
or substring matching of the static entries. -/
theorem spec_C5_validator_exact (cmd tail : String) :
    (commandAllowed cmd = true ↔
      (cmd ∈ allowed_commands ∨ pyStartsWith cmd backupCmdHead = true))
    ∧ commandAllowed (backupCmdHead ++ tail) = true := by
  have hadm : ∀ s : String, pyStartsWith s backupCmdHead = true →
      commandAllowed s = true := by
    intro s hp
    unfold commandAllowed
    rw [if_pos hp]
    simp
  constructor
  · constructor
    · intro hc
      by_cases hp : pyStartsWith cmd backupCmdHead = true
      · exact Or.inr hp
      · left
        unfold commandAllowed at hc
        rw [if_neg hp] at hc
        simpa using hc
    · intro hor
      cases hor with
      | inl hm =>
        unfold commandAllowed
        by_cases hp : pyStartsWith cmd backupCmdHead = true
        · rw [if_pos hp]
          simp [hm]
        · rw [if_neg hp]
          simpa using hm
      | inr hp => exact hadm cmd hp
  · apply hadm
    unfold pyStartsWith
    rw [string_data_append]
    exact isPrefixOf_append _ _

/-- Claim C5 witness: a static entry and a timestamped backup copy are both
admitted, through the theorem. -/
theorem spec_C5_witness :
    commandAllowed "docker compose ps" = true
    ∧ commandAllowed (backupCmdHead ++ "20240101") = true :=
  ⟨(spec_C5_validator_exact "docker compose ps" "x").1.mpr (Or.inl (by decide)),
   (spec_C5_validator_exact "x" "20240101").2⟩

/-- Claim C6: the runner is a total function of the subprocess outcome.
Normal completion (any exit code) yields `success = (exit code == 0)` with
both streams and the exit code captured; timeout expiry yields a failure
with the fixed `Command timed out` message; a launch failure yields a
failure carrying the exception message.  The timeout result carries an
`error` key that a completed result never has, so it is distinct from every
non-zero-exit result. -/
theorem spec_C6_runner_total (command : String) (cwd : Option String)
    (out err msg : String) (rc : Int) :
    (run_command command cwd (.completed out err rc)).1
      = .jobj [("success", .jbool (rc == 0)), ("stdout", .jstr out),
               ("stderr", .jstr err), ("returncode", .jnum rc)]
    ∧ (run_command command cwd .timedOut).1
      = .jobj [("success", .jbool false), ("error", .jstr "Command timed out")]
    ∧ (run_command command cwd (.launchFailure msg)).1
      = .jobj [("success", .jbool false), ("error", .jstr msg)]
    ∧ jlookup (run_command command cwd .timedOut).1 "error"
      = some (.jstr "Command timed out")
    ∧ jlookup (run_command command cwd (.completed out err rc)).1 "error" = none :=
  ⟨rfl, rfl, rfl, rfl, rfl⟩

/-- Claim C7 counterexample: with a valid token and the status query
completing with exit code 1 (a failed execution), the endpoint answers 200
with a success envelope, not the 500 the claim requires: the handler never
inspects `result[\x27success\x27]`. -/
theorem spec_C7_counterexample :
    status_endpoint (some "Bearer default-token") "default-token"
      (.completed "" "boom" 1)
      = (.response 200 (.jobj [("success", .jbool true),
          ("message", .jstr "Status checked successfully"), ("services", .jstr "")]),
         [.runProc "docker compose ps --format json" APP_DIR]) := rfl

/-- Claim C7 (amended): for every authenticated status request the handler
runs the fixed service-status query and returns its raw stdout as an opaque
string in a 200 success envelope whenever the subprocess completes,
regardless of exit code; when the result dict carries no stdout (timeout or
launch failure) the subscript raises `KeyError` and the handler answers 500
with a failure envelope. -/
theorem spec_C7_status_envelope (hdr : Option String) (cred out err msg : String)
    (rc : Int) (hauth : require_auth hdr cred = .authorized) :
    status_endpoint hdr cred (.completed out err rc)
      = (.response 200 (.jobj [("success", .jbool true),
          ("message", .jstr "Status checked successfully"), ("services", .jstr out)]),
         [.runProc "docker compose ps --format json" APP_DIR])
    ∧ status_endpoint hdr cred .timedOut
      = (.response 500 (.jobj [("success", .jbool false),
          ("error", .jstr "\x27stdout\x27")]),
         [.runProc "docker compose ps --format json" APP_DIR])
    ∧ status_endpoint hdr cred (.launchFailure msg)
      = (.response 500 (.jobj [("success", .jbool false),
          ("error", .jstr "\x27stdout\x27")]),
         [.runProc "docker compose ps --format json" APP_DIR]) := by
  have hg : ∀ k, with_auth hdr cred k = k () :=
    fun k => with_auth_authorized hdr cred k hauth
  refine ⟨?_, ?_, ?_⟩ <;> simp only [status_endpoint, hg] <;> rfl

/-- Claim C7 witness: the amended theorem applied at a concrete credential
and a timed-out query. -/
theorem spec_C7_witness :
    status_endpoint (some "Bearer default-token") "default-token" .timedOut
      = (.response 500 (.jobj [("success", .jbool false),
          ("error", .jstr "\x27stdout\x27")]),
         [.runProc "docker compose ps --format json" APP_DIR]) :=
  (spec_C7_status_envelope (some "Bearer default-token") "default-token"
    "" "" "" 0 (by decide)).2.1

/-- Claim C8: an authenticated update-caddy request with a string
`caddyfile` field and a succeeding write creates the app directory, writes
exactly the submitted content to the Caddyfile path, then runs the fixed
reload command; after the handler the file content equals the submitted
bytes whatever the reload outcome (no rollback), a failed reload answers
500 carrying the runner's result dict as `details`, and a successful reload
answers 200. -/
theorem spec_C8_update_caddy (hdr : Option String) (cred content : String)
    (fields : List (String × JVal)) (o : SubprocessOutcome)
    (hauth : require_auth hdr cred = .authorized)
    (hc : lookupField fields "caddyfile" = some (.jstr content)) :
    (update_caddy_endpoint hdr cred (some (.jobj fields)) none o).2
      = [.makedirs APP_DIR, .fileWrite CADDYFILE_PATH content,
         .runProc "docker compose exec caddy caddy reload --config /etc/caddy/Caddyfile"
           APP_DIR]
    ∧ fileAfter (update_caddy_endpoint hdr cred (some (.jobj fields)) none o).2
        CADDYFILE_PATH = some content
    ∧ (runSuccess o = false →
        (update_caddy_endpoint hdr cred (some (.jobj fields)) none o).1
          = .response 500 (.jobj [("success", .jbool false),
              ("error", .jstr "Failed to reload Caddy"),
              ("details", run_command_result o)]))
    ∧ (runSuccess o = true →
        (update_caddy_endpoint hdr cred (some (.jobj fields)) none o).1
          = .response 200 (.jobj [("success", .jbool true),
              ("message", .jstr "Caddyfile updated and Caddy reloaded successfully"),
              ("domains", (lookupField fields "domains").getD (.jarr []))])) := by
  have hg : update_caddy_endpoint hdr cred (some (.jobj fields)) none o
      = update_caddy (some (.jobj fields)) none o :=
    with_auth_authorized hdr cred _ hauth
  have hupd : update_caddy (some (.jobj fields)) none o
      = (if runSuccess o then
          .response 200 (.jobj [("success", .jbool true),
            ("message", .jstr "Caddyfile updated and Caddy reloaded successfully"),
            ("domains", (lookupField fields "domains").getD (.jarr []))])
        else
          .response 500 (.jobj [("success", .jbool false),
            ("error", .jstr "Failed to reload Caddy"),
            ("details", run_command_result o)]),
        [.makedirs APP_DIR, .fileWrite CADDYFILE_PATH content,
         .runProc "docker compose exec caddy caddy reload --config /etc/caddy/Caddyfile"
           APP_DIR]) := by
    simp only [update_caddy, hc, Option.getD_some, run_command, resultSuccess_run,
      resolveCwd]
    cases hro : runSuccess o <;> simp [hro]
  refine ⟨?_, ?_, ?_, ?_⟩
  · rw [hg, hupd]
  · rw [hg, hupd]
    simp [fileAfter]
  · intro hro
    rw [hg, hupd]
    simp [hro]
  · intro hro
    rw [hg, hupd]
    simp [hro]

/-- Claim C8 witness: concrete content with a timed-out reload: the file
content equals the submitted bytes even though the reload failed. -/
theorem spec_C8_witness :
    fileAfter (update_caddy_endpoint (some "Bearer default-token") "default-token"
      (some (.jobj [("caddyfile", .jstr "hello")])) none .timedOut).2 CADDYFILE_PATH
      = some "hello" :=
  (spec_C8_update_caddy (some "Bearer default-token") "default-token" "hello"
    [("caddyfile", .jstr "hello")] .timedOut (by decide) rfl).2.1

/-- Claim C9: the deploy handler runs the deploy script first; when that
step fails it answers 500 immediately, carrying the failing step's result
dict as `details`, and the container-refresh command is never launched (the
effect trace holds only the script launch); when the first step succeeds,
the two steps are launched in strict sequence. -/
theorem spec_C9_deploy_sequence (hdr : Option String) (cred : String)
    (fields : List (String × JVal)) (o1 o2 : SubprocessOutcome)
    (hauth : require_auth hdr cred = .authorized) :
    (runSuccess o1 = false →
      deploy_endpoint hdr cred (some (.jobj fields)) o1 o2
        = (.response 500 (.jobj [("success", .jbool false),
            ("error", .jstr "Deploy script failed"),
            ("details", run_command_result o1)]),
           [.runProc "./deploy.sh" APP_DIR]))
    ∧ (runSuccess o1 = true →
        (deploy_endpoint hdr cred (some (.jobj fields)) o1 o2).2
          = [.runProc "./deploy.sh" APP_DIR,
             .runProc "docker compose up -d --pull always" APP_DIR]) := by
  have hg : deploy_endpoint hdr cred (some (.jobj fields)) o1 o2
      = deploy (some (.jobj fields)) o1 o2 :=
    with_auth_authorized hdr cred _ hauth
  constructor
  · intro h1
    rw [hg]
    simp [deploy, run_command, resultSuccess_run, resolveCwd, h1]
  · intro h1
    rw [hg]
    cases h2 : runSuccess o2 <;>
      simp [deploy, run_command, resultSuccess_run, resolveCwd, h1, h2]

/-- Claim C9 witness: a timed-out deploy script with a would-succeed second
step: 500 with the script's result as details and a one-element effect
trace. -/
theorem spec_C9_witness :
    deploy_endpoint (some "Bearer default-token") "default-token"
      (some (.jobj [])) .timedOut (.completed "" "" 0)
      = (.response 500 (.jobj [("success", .jbool false),
          ("error", .jstr "Deploy script failed"),
          ("details", run_command_result .timedOut)]),
         [.runProc "./deploy.sh" APP_DIR]) :=
  (spec_C9_deploy_sequence (some "Bearer default-token") "default-token"
    [] .timedOut (.completed "" "" 0) (by decide)).1 rfl

end VpsAgent
